import Mathlib

set_option linter.unusedVariables false

/-!
Shallow embedding of `src/api/views.py` (repository
`Reaganz-Wat/devops-stage1-deployment`) and verification of its
natural-language specification.

The source file defines two Django view functions:

```
def home(request):
    return JsonResponse({
        'message': 'Hello from DevOps Stage 1 - Django!',
        'status': 'success',
        'timestamp': datetime.now().isoformat()
    })

def health(request):
    return JsonResponse({'status': 'healthy'})
```

The clock read `datetime.now()` is modelled by passing the current
`PyDateTime` value as an explicit argument; `isoformat` is embedded
following CPython's documented behaviour for naive datetimes:
`YYYY-MM-DDTHH:MM:SS.ffffff`, with the `.ffffff` part omitted when
`microsecond` is 0, and no timezone designator.
-/

namespace Views

/-- A Python `datetime.datetime` value (naive, as produced by
`datetime.now()`): calendar fields plus microseconds. -/
structure PyDateTime where
  year : Nat
  month : Nat
  day : Nat
  hour : Nat
  minute : Nat
  second : Nat
  microsecond : Nat
deriving DecidableEq, Repr

/-- Number of days in a month, Gregorian calendar (as enforced by the
invariants of Python `datetime`). -/
def daysInMonth (y m : Nat) : Nat :=
  if m = 2 then (if y % 4 = 0 ∧ (y % 100 ≠ 0 ∨ y % 400 = 0) then 29 else 28)
  else if m = 4 ∨ m = 6 ∨ m = 9 ∨ m = 11 then 30 else 31

/-- The range invariants Python `datetime` enforces on its fields. -/
def validb (t : PyDateTime) : Bool :=
  1 ≤ t.year && t.year ≤ 9999 && 1 ≤ t.month && t.month ≤ 12 &&
  1 ≤ t.day && t.day ≤ daysInMonth t.year t.month &&
  t.hour ≤ 23 && t.minute ≤ 59 && t.second ≤ 59 && t.microsecond ≤ 999999

/-- A `PyDateTime` whose fields are in range. -/
def validDT (t : PyDateTime) : Prop := validb t = true

/-- Decimal digit character for `n < 10`, by code point arithmetic. -/
def digc (n : Nat) : Char := Char.ofNat (48 + n)

/-- Value of a decimal digit character, `none` on a non-digit. -/
def d2n (c : Char) : Option Nat :=
  if 48 ≤ c.toNat ∧ c.toNat ≤ 57 then some (c.toNat - 48) else none

/-- Two-digit zero-padded decimal rendering (for `n < 100`). -/
def pad2 (n : Nat) : List Char := [digc (n / 10), digc (n % 10)]

/-- Four-digit zero-padded decimal rendering (for `n < 10000`). -/
def pad4 (n : Nat) : List Char :=
  [digc (n / 1000), digc (n / 100 % 10), digc (n / 10 % 10), digc (n % 10)]

/-- Six-digit zero-padded decimal rendering (for `n < 1000000`). -/
def pad6 (n : Nat) : List Char :=
  [digc (n / 100000), digc (n / 10000 % 10), digc (n / 1000 % 10),
   digc (n / 100 % 10), digc (n / 10 % 10), digc (n % 10)]

/-- The fractional-seconds part of `isoformat`: CPython omits it entirely
when `microsecond` is 0, otherwise prints `.` and six zero-padded digits. -/
def fracPart (us : Nat) : List Char := if us = 0 then [] else '.' :: pad6 us

/-- Character sequence produced by Python `datetime.isoformat()` on a naive
datetime: `YYYY-MM-DDTHH:MM:SS` followed by the fractional part. -/
def isoformatChars (t : PyDateTime) : List Char :=
  pad4 t.year ++ '-' :: (pad2 t.month ++ '-' :: (pad2 t.day ++ 'T' ::
    (pad2 t.hour ++ ':' :: (pad2 t.minute ++ ':' ::
      (pad2 t.second ++ fracPart t.microsecond)))))

/-- Python `datetime.isoformat()` on a naive datetime. -/
def isoformat (t : PyDateTime) : String := String.mk (isoformatChars t)

/-- An incoming HTTP request: method, path, headers and body, none of which
the handlers inspect. -/
structure HttpRequest where
  method : String
  path : String
  headers : List (String × String)
  body : String
deriving DecidableEq, Repr

/-- A Django `JsonResponse`: status code 200 and JSON content type by
default, with the JSON object carried as an ordered association list of
string fields (all values in this program are strings). -/
structure JsonResponse where
  statusCode : Nat
  contentType : String
  body : List (String × String)
deriving DecidableEq, Repr

/-- The greeting view `home` from `src/api/views.py`, with the clock read
`datetime.now()` made an explicit argument `now`. -/
def home (request : HttpRequest) (now : PyDateTime) : JsonResponse :=
  { statusCode := 200
    contentType := "application/json"
    body := [("message", "Hello from DevOps Stage 1 - Django!"),
             ("status", "success"),
             ("timestamp", isoformat now)] }

/-- The health view `health` from `src/api/views.py`. -/
def health (request : HttpRequest) : JsonResponse :=
  { statusCode := 200
    contentType := "application/json"
    body := [("status", "healthy")] }

/-- A sample request used for concrete witnesses. -/
def sampleRequest : HttpRequest := ⟨"GET", "/", [], ""⟩

/-- Modelled from the spec: the external wall clock advancing by exactly one
second (scenario "issuing the greeting request twice one second apart"),
with the usual calendar carry into minutes, hours, days, months and years.
The clock itself is an external collaborator, not code of this repository. -/
def addOneSecond (t : PyDateTime) : PyDateTime :=
  if t.second < 59 then { t with second := t.second + 1 }
  else if t.minute < 59 then { t with second := 0, minute := t.minute + 1 }
  else if t.hour < 23 then { t with second := 0, minute := 0, hour := t.hour + 1 }
  else if t.day < daysInMonth t.year t.month then
    { t with second := 0, minute := 0, hour := 0, day := t.day + 1 }
  else if t.month < 12 then
    { t with second := 0, minute := 0, hour := 0, day := 1, month := t.month + 1 }
  else
    { t with second := 0, minute := 0, hour := 0, day := 1, month := 1,
             year := t.year + 1 }

/-- Chronological (lexicographic) order on datetime values. -/
def dtLt (a b : PyDateTime) : Prop :=
  a.year < b.year ∨ (a.year = b.year ∧
    (a.month < b.month ∨ (a.month = b.month ∧
      (a.day < b.day ∨ (a.day = b.day ∧
        (a.hour < b.hour ∨ (a.hour = b.hour ∧
          (a.minute < b.minute ∨ (a.minute = b.minute ∧
            (a.second < b.second ∨ (a.second = b.second ∧
              a.microsecond < b.microsecond)))))))))))

/-- Read one decimal digit from the front of a character list. -/
def readD (l : List Char) : Option (Nat × List Char) :=
  match l with
  | c :: r => match d2n c with
    | some n => some (n, r)
    | none => none
  | [] => none

/-- Read an expected separator character from the front of the list. -/
def readSep (c : Char) (l : List Char) : Option (List Char) :=
  match l with
  | c' :: r => if c' = c then some r else none
  | [] => none

/-- Read a two-digit decimal number. -/
def read2 (l : List Char) : Option (Nat × List Char) :=
  (readD l).bind fun a => (readD a.2).bind fun b => some (10 * a.1 + b.1, b.2)

/-- Read a four-digit decimal number. -/
def read4 (l : List Char) : Option (Nat × List Char) :=
  (read2 l).bind fun a => (read2 a.2).bind fun b => some (100 * a.1 + b.1, b.2)

/-- Read a six-digit decimal number. -/
def read6 (l : List Char) : Option (Nat × List Char) :=
  (read2 l).bind fun a =>
    (read2 a.2).bind fun b =>
      (read2 b.2).bind fun c => some (10000 * a.1 + 100 * b.1 + c.1, c.2)

/-- Parse an ISO-8601 datetime string of the shape emitted by Python
`isoformat` (`YYYY-MM-DDTHH:MM:SS` with optional `.ffffff`), range-checking
the fields as Python `datetime.fromisoformat` does. -/
def parseIsoChars (l : List Char) : Option PyDateTime :=
  (read4 l).bind fun y =>
  (readSep '-' y.2).bind fun l1 =>
  (read2 l1).bind fun mo =>
  (readSep '-' mo.2).bind fun l2 =>
  (read2 l2).bind fun d =>
  (readSep 'T' d.2).bind fun l3 =>
  (read2 l3).bind fun h =>
  (readSep ':' h.2).bind fun l4 =>
  (read2 l4).bind fun mi =>
  (readSep ':' mi.2).bind fun l5 =>
  (read2 l5).bind fun s =>
  match s.2 with
  | [] =>
    let t : PyDateTime := ⟨y.1, mo.1, d.1, h.1, mi.1, s.1, 0⟩
    if validb t then some t else none
  | c :: r =>
    if c = '.' then
      (read6 r).bind fun us =>
        match us.2 with
        | [] =>
          let t : PyDateTime := ⟨y.1, mo.1, d.1, h.1, mi.1, s.1, us.1⟩
          if validb t then some t else none
        | _ => none
    else none

/-- Parse an ISO-8601 datetime string. -/
def parseIso (s : String) : Option PyDateTime := parseIsoChars s.data

instance dtLtDec (a b : PyDateTime) : Decidable (dtLt a b) := by
  unfold dtLt
  infer_instance

instance validDTDec (t : PyDateTime) : Decidable (validDT t) := by
  unfold validDT
  infer_instance

/-- A string of the exact shape of the spec glossary example
`2024-01-01T12:00:00.000000`: date, `T`, time, and a six-digit
fractional-seconds component. -/
def sixDigitIsoForm (s : String) : Prop :=
  ∃ y mo d h mi sec us, s = String.mk
    (pad4 y ++ '-' :: (pad2 mo ++ '-' :: (pad2 d ++ 'T' ::
      (pad2 h ++ ':' :: (pad2 mi ++ ':' :: (pad2 sec ++ '.' :: pad6 us))))))

/-- A string of the shape date, `T`, time, with no fractional-seconds
component. -/
def basicIsoForm (s : String) : Prop :=
  ∃ y mo d h mi sec, s = String.mk
    (pad4 y ++ '-' :: (pad2 mo ++ '-' :: (pad2 d ++ 'T' ::
      (pad2 h ++ ':' :: (pad2 mi ++ ':' :: pad2 sec)))))

/-- State-passing invocation of `home`: the external world is an arbitrary
state `ext` together with the clock value the handler reads; the source
contains no statement writing to any external state, so the invocation
returns `ext` untouched alongside the response. -/
def invokeHome {σ : Type} (ext : σ) (now : PyDateTime) (r : HttpRequest) :
    σ × JsonResponse := (ext, home r now)

/-- State-passing invocation of `health`: the source reads nothing (not
even the clock) and writes nothing. -/
def invokeHealth {σ : Type} (ext : σ) (now : PyDateTime) (r : HttpRequest) :
    σ × JsonResponse := (ext, health r)

/-- Drop the `timestamp` field of a response body, for comparing responses
"structurally identical aside from the timestamp field". -/
def eraseTimestamp (resp : JsonResponse) : JsonResponse :=
  { resp with body := resp.body.filter (fun kv => kv.1 != "timestamp") }

/-- Running `home` when the clock read may fail: `none` models
`datetime.now()` raising, which the handler does not catch and which
propagates as a framework-level fault; `some` models a successful read. -/
def homeRun (r : HttpRequest) (clockRead : Option PyDateTime) :
    Option JsonResponse :=
  match clockRead with
  | some t => some (home r t)
  | none => none

/-- A string carrying the UTC designator `Z` as its final character. -/
def hasTrailingZ (s : String) : Prop := ∃ pre, s.data = pre ++ ['Z']

/-- A string ending in a `+hh:mm` or `-hh:mm` UTC-offset designator. -/
def hasUtcOffsetSuffix (s : String) : Prop :=
  ∃ pre sign h1 h2 m1 m2, (sign = '+' ∨ sign = '-') ∧
    s.data = pre ++ [sign, h1, h2, ':', m1, m2]

end Views

namespace Views

theorem d2n_digc (n : Nat) (h : n < 10) : d2n (digc n) = some n := by
  interval_cases n <;> decide

theorem readD_digc (n : Nat) (h : n < 10) (r : List Char) :
    readD (digc n :: r) = some (n, r) := by
  simp [readD, d2n_digc n h]

theorem readSep_cons (c : Char) (r : List Char) : readSep c (c :: r) = some r := by
  simp [readSep]

theorem read2_pad2 (n : Nat) (h : n < 100) (r : List Char) :
    read2 (pad2 n ++ r) = some (n, r) := by
  have h1 := readD_digc (n / 10) (by omega)
  have h2 := readD_digc (n % 10) (by omega)
  simp [pad2, read2, h1, h2]
  omega

theorem read4_pad4 (n : Nat) (h : n < 10000) (r : List Char) :
    read4 (pad4 n ++ r) = some (n, r) := by
  have h1 := readD_digc (n / 1000) (by omega)
  have h2 := readD_digc (n / 100 % 10) (by omega)
  have h3 := readD_digc (n / 10 % 10) (by omega)
  have h4 := readD_digc (n % 10) (by omega)
  simp [pad4, read4, read2, h1, h2, h3, h4]
  omega

theorem read6_pad6 (n : Nat) (h : n < 1000000) (r : List Char) :
    read6 (pad6 n ++ r) = some (n, r) := by
  have h1 := readD_digc (n / 100000) (by omega)
  have h2 := readD_digc (n / 10000 % 10) (by omega)
  have h3 := readD_digc (n / 1000 % 10) (by omega)
  have h4 := readD_digc (n / 100 % 10) (by omega)
  have h5 := readD_digc (n / 10 % 10) (by omega)
  have h6 := readD_digc (n % 10) (by omega)
  simp [pad6, read6, read2, h1, h2, h3, h4, h5, h6]
  omega

theorem validDT_bounds (t : PyDateTime) (h : validDT t) :
    1 ≤ t.year ∧ t.year ≤ 9999 ∧ 1 ≤ t.month ∧ t.month ≤ 12 ∧
    1 ≤ t.day ∧ t.day ≤ daysInMonth t.year t.month ∧
    t.hour ≤ 23 ∧ t.minute ≤ 59 ∧ t.second ≤ 59 ∧ t.microsecond ≤ 999999 := by
  simp only [validDT, validb, Bool.and_eq_true, decide_eq_true_eq] at h
  tauto

theorem daysInMonth_le (y m : Nat) : daysInMonth y m ≤ 31 := by
  unfold daysInMonth
  split <;> [split <;> omega; split <;> omega]

theorem obind_some {α β : Type} (a : α) (f : α → Option β) :
    (some a).bind f = f a := rfl

theorem fracPart_zero : fracPart 0 = [] := rfl

theorem fracPart_ne_zero (us : Nat) (h : us ≠ 0) :
    fracPart us = '.' :: pad6 us := by simp [fracPart, h]

set_option maxHeartbeats 2000000 in
/-- Round trip: parsing the `isoformat` rendering of a valid datetime
recovers it exactly. -/
theorem parseIso_isoformat (t : PyDateTime) (h : validDT t) :
    parseIso (isoformat t) = some t := by
  obtain ⟨hy1, hy2, hmo1, hmo2, hd1, hd2, hh, hmi, hs, hus⟩ := validDT_bounds t h
  have hd31 := daysInMonth_le t.year t.month
  have e4 := read4_pad4 t.year (by omega)
  have emo := read2_pad2 t.month (by omega)
  have ed := read2_pad2 t.day (by omega)
  have eh := read2_pad2 t.hour (by omega)
  have emi := read2_pad2 t.minute (by omega)
  have es := read2_pad2 t.second (by omega)
  show parseIsoChars (isoformatChars t) = some t
  rw [isoformatChars]
  by_cases hμ : t.microsecond = 0
  · rw [hμ, fracPart_zero]
    simp only [parseIsoChars, e4, obind_some, readSep_cons, emo, ed, eh, emi, es]
    show (if validb ⟨t.year, t.month, t.day, t.hour, t.minute, t.second, 0⟩
        then some ⟨t.year, t.month, t.day, t.hour, t.minute, t.second, 0⟩
        else none) = some t
    rw [← hμ]
    exact if_pos h
  · rw [fracPart_ne_zero t.microsecond hμ]
    have eus : read6 (pad6 t.microsecond) = some (t.microsecond, []) := by
      simpa using read6_pad6 t.microsecond (by omega) []
    simp only [parseIsoChars, e4, obind_some, readSep_cons, emo, ed, eh, emi, es]
    rw [if_pos trivial]
    simp only [eus, obind_some]
    exact if_pos h

theorem dtLt_addOneSecond (t : PyDateTime) : dtLt t (addOneSecond t) := by
  unfold addOneSecond
  split_ifs <;> simp [dtLt]

theorem dtLt_irrefl (t : PyDateTime) : ¬ dtLt t t := by
  simp [dtLt]

end Views

namespace Views

/-- C1: for every HTTP request and every clock value, `home` returns a
response with status code 200 whose body has `message` equal to
"Hello from DevOps Stage 1 - Django!" and `status` equal to "success". -/
theorem home_status_and_literals (request : HttpRequest) (now : PyDateTime) :
    (home request now).statusCode = 200 ∧
    List.lookup "message" (home request now).body =
      some "Hello from DevOps Stage 1 - Django!" ∧
    List.lookup "status" (home request now).body = some "success" := by
  refine ⟨rfl, ?_, ?_⟩ <;> rfl

/-- C2: for every HTTP request, `health` returns status code 200 with body
exactly the one-field JSON object with `status` mapped to "healthy". -/
theorem health_response_exact (request : HttpRequest) :
    (health request).statusCode = 200 ∧
    (health request).body = [("status", "healthy")] :=
  ⟨rfl, rfl⟩

/-- C3: for every clock value read during an invocation of `home`, the
`timestamp` field of the response body is exactly the ISO-8601
serialization of that clock value. -/
theorem home_timestamp_is_isoformat (request : HttpRequest) (now : PyDateTime) :
    List.lookup "timestamp" (home request now).body = some (isoformat now) := by
  rfl

/-- C6: both handlers ignore the contents of the request: two invocations
with different requests but the same clock value produce identical
responses. -/
theorem handlers_ignore_request (r1 r2 : HttpRequest) (now : PyDateTime) :
    home r1 now = home r2 now ∧ health r1 = health r2 :=
  ⟨rfl, rfl⟩

/-- C4: two greeting invocations whose clock values are one second apart
(the second strictly later) produce different `timestamp` strings, both
parse as valid ISO-8601 datetimes, and the parsed datetimes are strictly
increasing in invocation order. -/
theorem home_timestamps_increase (r1 r2 : HttpRequest) (t1 : PyDateTime)
    (h1 : validDT t1) (h2 : validDT (addOneSecond t1)) (s1 s2 : String)
    (e1 : List.lookup "timestamp" (home r1 t1).body = some s1)
    (e2 : List.lookup "timestamp" (home r2 (addOneSecond t1)).body = some s2) :
    s1 ≠ s2 ∧ parseIso s1 = some t1 ∧ parseIso s2 = some (addOneSecond t1) ∧
      dtLt t1 (addOneSecond t1) := by
  have d1 : List.lookup "timestamp" (home r1 t1).body = some (isoformat t1) := rfl
  have d2 : List.lookup "timestamp" (home r2 (addOneSecond t1)).body
      = some (isoformat (addOneSecond t1)) := rfl
  have hs1 : s1 = isoformat t1 := Option.some.inj (e1.symm.trans d1)
  have hs2 : s2 = isoformat (addOneSecond t1) := Option.some.inj (e2.symm.trans d2)
  have p1 : parseIso s1 = some t1 := by rw [hs1]; exact parseIso_isoformat t1 h1
  have p2 : parseIso s2 = some (addOneSecond t1) := by
    rw [hs2]; exact parseIso_isoformat _ h2
  have hlt := dtLt_addOneSecond t1
  refine ⟨?_, p1, p2, hlt⟩
  intro heq
  have hsome : some t1 = some (addOneSecond t1) := by rw [← p1, heq, p2]
  have ht := Option.some.inj hsome
  rw [← ht] at hlt
  exact dtLt_irrefl t1 hlt

/-- Witness for C4 at the concrete clock value 2024-01-01 12:00:00. -/
theorem home_timestamps_increase_witness :
    validDT ⟨2024, 1, 1, 12, 0, 0, 0⟩ ∧
    validDT (addOneSecond ⟨2024, 1, 1, 12, 0, 0, 0⟩) ∧
    ("2024-01-01T12:00:00" ≠ "2024-01-01T12:00:01" ∧
      parseIso "2024-01-01T12:00:00" = some ⟨2024, 1, 1, 12, 0, 0, 0⟩ ∧
      parseIso "2024-01-01T12:00:01" = some (addOneSecond ⟨2024, 1, 1, 12, 0, 0, 0⟩) ∧
      dtLt ⟨2024, 1, 1, 12, 0, 0, 0⟩ (addOneSecond ⟨2024, 1, 1, 12, 0, 0, 0⟩)) :=
  ⟨by decide, by decide,
    home_timestamps_increase sampleRequest sampleRequest ⟨2024, 1, 1, 12, 0, 0, 0⟩
      (by decide) (by decide) "2024-01-01T12:00:00" "2024-01-01T12:00:01"
      (by decide) (by decide)⟩

/-- C5 counterexample: at the clock value 2024-01-01 12:00:00.000000 (the
spec's own glossary moment, microsecond 0) the timestamp produced by
`home` is `2024-01-01T12:00:00`, which does not have the claimed six-digit
fractional-seconds component — Python `isoformat` omits it entirely. -/
theorem home_timestamp_no_fraction_at_zero :
    List.lookup "timestamp"
        (home sampleRequest ⟨2024, 1, 1, 12, 0, 0, 0⟩).body
      = some "2024-01-01T12:00:00" ∧
    ¬ sixDigitIsoForm "2024-01-01T12:00:00" := by
  refine ⟨by decide, ?_⟩
  rintro ⟨y, mo, d, h, mi, sec, us, heq⟩
  have hdata := congrArg String.data heq
  have hlen := congrArg List.length hdata
  have h19 : ("2024-01-01T12:00:00" : String).data.length = 19 := rfl
  rw [h19] at hlen
  simp [pad4, pad2, pad6] at hlen

/-- C5 amended: the greeting `timestamp` has the glossary's six-digit
fractional form exactly when the clock's microsecond component is nonzero;
when it is zero, the fractional component is omitted and the string is the
plain date-`T`-time form. -/
theorem home_timestamp_fraction_iff (r : HttpRequest) (t : PyDateTime)
    (s : String)
    (e : List.lookup "timestamp" (home r t).body = some s) :
    (t.microsecond ≠ 0 → sixDigitIsoForm s) ∧
    (t.microsecond = 0 → basicIsoForm s) := by
  have d : List.lookup "timestamp" (home r t).body = some (isoformat t) := rfl
  have hs : s = isoformat t := Option.some.inj (e.symm.trans d)
  subst hs
  constructor
  · intro hμ
    exact ⟨t.year, t.month, t.day, t.hour, t.minute, t.second, t.microsecond,
      by simp [isoformat, isoformatChars, fracPart_ne_zero _ hμ]⟩
  · intro hμ
    exact ⟨t.year, t.month, t.day, t.hour, t.minute, t.second,
      by simp [isoformat, isoformatChars, hμ, fracPart_zero]⟩

/-- Witness for the amended C5 at microsecond 1 and at microsecond 0. -/
theorem home_timestamp_fraction_iff_witness :
    List.lookup "timestamp"
        (home sampleRequest ⟨2024, 1, 1, 12, 0, 0, 1⟩).body
      = some "2024-01-01T12:00:00.000001" ∧
    ((1 : Nat) ≠ 0 → sixDigitIsoForm "2024-01-01T12:00:00.000001") ∧
    ((1 : Nat) = 0 → basicIsoForm "2024-01-01T12:00:00.000001") :=
  ⟨by decide,
    (home_timestamp_fraction_iff sampleRequest ⟨2024, 1, 1, 12, 0, 0, 1⟩
      "2024-01-01T12:00:00.000001" (by decide)).1,
    (home_timestamp_fraction_iff sampleRequest ⟨2024, 1, 1, 12, 0, 0, 1⟩
      "2024-01-01T12:00:00.000001" (by decide)).2⟩

/-- C7: neither handler mutates external state: a state-passing invocation
returns the external state unchanged, and repeated invocations (any
requests, any clock values) produce structurally identical responses aside
from the greeting's `timestamp` field. -/
theorem handlers_no_mutation (σ : Type) (ext : σ) (r1 r2 : HttpRequest)
    (t1 t2 : PyDateTime) :
    (invokeHome ext t1 r1).1 = ext ∧ (invokeHealth ext t1 r1).1 = ext ∧
    eraseTimestamp (invokeHome ext t1 r1).2
      = eraseTimestamp (invokeHome ext t2 r2).2 ∧
    (invokeHealth ext t1 r1).2 = (invokeHealth ext t2 r2).2 :=
  ⟨rfl, rfl, rfl, rfl⟩

/-- C8: when the clock read succeeds, the greeting handler cannot fail and
returns a normal 200 response; the health handler is total
unconditionally, always returning status 200. -/
theorem handlers_total (r : HttpRequest) (c : Option PyDateTime)
    (h : c.isSome = true) :
    (∃ resp, homeRun r c = some resp ∧ resp.statusCode = 200) ∧
    (health r).statusCode = 200 := by
  match c, h with
  | some t, _ => exact ⟨⟨home r t, rfl, rfl⟩, rfl⟩

/-- Witness for C8 at a concrete successful clock read. -/
theorem handlers_total_witness :
    (some ⟨2024, 1, 1, 12, 0, 0, 0⟩ : Option PyDateTime).isSome = true ∧
    ((∃ resp,
        homeRun sampleRequest (some ⟨2024, 1, 1, 12, 0, 0, 0⟩) = some resp ∧
        resp.statusCode = 200) ∧
      (health sampleRequest).statusCode = 200) :=
  ⟨rfl, handlers_total sampleRequest (some ⟨2024, 1, 1, 12, 0, 0, 0⟩) rfl⟩

/-- C9: the health handler is a constant function of both the request and
the clock: any two invocations, with any external state, clock values and
requests, return identical responses. -/
theorem health_constant (σ1 σ2 : Type) (e1 : σ1) (e2 : σ2)
    (t1 t2 : PyDateTime) (r1 r2 : HttpRequest) :
    (invokeHealth e1 t1 r1).2 = (invokeHealth e2 t2 r2).2 :=
  rfl

theorem digc_ne_nondigit (n : Nat) (h : n < 10) (c : Char) (hc : d2n c = none) :
    digc n ≠ c := by
  intro e
  rw [← e, d2n_digc n h] at hc
  exact Option.noConfusion hc

/-- C10: the greeting `timestamp` is a naive local time: the string carries
no timezone designator — neither a trailing `Z` nor a `+hh:mm`/`-hh:mm`
UTC-offset suffix — because the handler serializes a timezone-unaware
`datetime.now()` value. -/
theorem home_timestamp_naive (r : HttpRequest) (t : PyDateTime)
    (hv : validDT t) (s : String)
    (e : List.lookup "timestamp" (home r t).body = some s) :
    ¬ hasTrailingZ s ∧ ¬ hasUtcOffsetSuffix s := by
  have d : List.lookup "timestamp" (home r t).body = some (isoformat t) := rfl
  have hs : s = isoformat t := Option.some.inj (e.symm.trans d)
  subst hs
  obtain ⟨-, -, -, -, -, -, -, -, -, hus⟩ := validDT_bounds t hv
  constructor
  · rintro ⟨pre, hpre⟩
    have hrev := congrArg List.reverse hpre
    by_cases hμ : t.microsecond = 0
    · simp [isoformat, isoformatChars, pad4, pad2, pad6, fracPart, hμ] at hrev
      exact digc_ne_nondigit (t.second % 10) (by omega) 'Z' rfl hrev.1
    · simp [isoformat, isoformatChars, pad4, pad2, pad6, fracPart, hμ] at hrev
      exact digc_ne_nondigit (t.microsecond % 10) (by omega) 'Z' rfl hrev.1
  · rintro ⟨pre, sign, h1, h2, m1, m2, hsign, hpre⟩
    have hrev := congrArg List.reverse hpre
    by_cases hμ : t.microsecond = 0
    · simp [isoformat, isoformatChars, pad4, pad2, pad6, fracPart, hμ] at hrev
      have hcolon := hrev.2.2.2.2.1
      rcases hsign with hsg | hsg <;> rw [hsg] at hcolon <;>
        exact absurd hcolon (by decide)
    · simp [isoformat, isoformatChars, pad4, pad2, pad6, fracPart, hμ] at hrev
      exact digc_ne_nondigit (t.microsecond / 100 % 10) (by omega) ':' rfl
        hrev.2.2.1

/-- Witness for C10 at the concrete clock value 2024-01-01 12:00:00. -/
theorem home_timestamp_naive_witness :
    validDT ⟨2024, 1, 1, 12, 0, 0, 0⟩ ∧
    List.lookup "timestamp"
        (home sampleRequest ⟨2024, 1, 1, 12, 0, 0, 0⟩).body
      = some "2024-01-01T12:00:00" ∧
    (¬ hasTrailingZ "2024-01-01T12:00:00" ∧
      ¬ hasUtcOffsetSuffix "2024-01-01T12:00:00") :=
  ⟨by decide, by decide,
    home_timestamp_naive sampleRequest ⟨2024, 1, 1, 12, 0, 0, 0⟩ (by decide)
      "2024-01-01T12:00:00" (by decide)⟩

end Views
